import Mathlib

/-!
Verification of the weekly Shopify collection automation
(`src/shopify_collection_update.py`) against its specification.

The program is a single linear workflow over five HTTP client calls.
We embed it shallowly: each client operation becomes a pure function of
the parsed HTTP outcome for that call (the transport either delivers a
parsed body or fails with a `requests.RequestException`-style error),
and one run of `run_weekly_update` becomes a pure function of

  * an `Env` recording the remote service's response to each call, and
  * the remote collection's membership, modelled as the claims direct:
    a state of product identifiers mutated by the remove and add calls,
    with no concurrent writers, where each remove/add is either applied
    (and reported successful) or leaves the state unchanged (and is
    reported failed).

The run returns the summary dictionary, the final remote membership,
and the trace of API calls issued, so that claims about "no call is
issued" are statements about the trace.
-/

namespace ShopifyAutomation

/-- A product record as parsed from the API JSON; the workflow reads only
the `id` field of products (src lines 133 and 273), so we keep `id` plus a
`title` to stand for the rest of the record. -/
structure Product where
  id : Nat
  title : String
deriving Repr, DecidableEq

/-- The collection record parsed from `GET /collections/{id}.json`; the
workflow reads only its `title` key, with default "Unknown"
(src lines 250 and 278), and the key may be absent. -/
structure CollectionInfo where
  title : Option String
deriving Repr, DecidableEq

/-- Outcome of one HTTP round trip: a parsed body, or a transport/HTTP
error (`requests.exceptions.RequestException`, including the
`raise_for_status` path). -/
inductive HttpResult (α : Type) where
  | ok (body : α)
  | err (msg : String)
deriving Repr, DecidableEq

/-- Client operation `get_new_products` (src lines 56-87): on success the
response JSON's `products` key is unwrapped, an absent key yields `[]`;
on a transport/HTTP error the call logs and returns `[]`. -/
def get_new_products (resp : HttpResult (Option (List Product))) : List Product :=
  match resp with
  | HttpResult.ok body => body.getD []
  | HttpResult.err _ => []

/-- Client operation `get_collection_products` (src lines 89-113): same
unwrapping and degradation as `get_new_products`. -/
def get_collection_products (resp : HttpResult (Option (List Product))) : List Product :=
  match resp with
  | HttpResult.ok body => body.getD []
  | HttpResult.err _ => []

/-- Client operation `remove_product_from_collection` (src lines 139-159):
`True` on HTTP success, `False` (logged) on a transport/HTTP error. -/
def remove_product_from_collection (resp : HttpResult Unit) : Bool :=
  match resp with
  | HttpResult.ok _ => true
  | HttpResult.err _ => false

/-- Client operation `add_product_to_collection` (src lines 181-207):
`True` on HTTP success, `False` (logged) on a transport/HTTP error. -/
def add_product_to_collection (resp : HttpResult Unit) : Bool :=
  match resp with
  | HttpResult.ok _ => true
  | HttpResult.err _ => false

/-- Client operation `get_collection_info` (src lines 209-230): on success
the response JSON's `collection` key (absent key yields `None`); on a
transport/HTTP error the call logs and returns `None`. -/
def get_collection_info (resp : HttpResult (Option CollectionInfo)) : Option CollectionInfo :=
  match resp with
  | HttpResult.ok body => body
  | HttpResult.err _ => none

/-- The remote service's behaviour during one run: the parsed outcome of
the metadata fetch and the recent-products listing, whether the member
listing's transport fails, which remove/add calls fail at the transport
level (per product id), and the wall-clock reading used for
`datetime.now().isoformat()`. When the member listing's transport
succeeds it reports the true current membership (no concurrent writers,
per the claims' state model). -/
structure Env where
  infoResp : HttpResult (Option CollectionInfo)
  productsResp : HttpResult (Option (List Product))
  membersFail : Option String
  removeFail : Nat → Option String
  addFail : Nat → Option String
  timestamp : String

/-- The transport outcome of a `DELETE .../products/{pid}.json` call. -/
def removeResp (env : Env) (pid : Nat) : HttpResult Unit :=
  match env.removeFail pid with
  | some e => HttpResult.err e
  | none => HttpResult.ok ()

/-- The transport outcome of a `POST .../products.json` add call. -/
def addResp (env : Env) (pid : Nat) : HttpResult Unit :=
  match env.addFail pid with
  | some e => HttpResult.err e
  | none => HttpResult.ok ()

/-- A membership identifier rendered as the product record the member
listing returns for it. -/
def toMember (i : Nat) : Product := ⟨i, ""⟩

/-- The transport outcome of the member-listing call: on transport success
the body lists the current remote membership under the `products` key. -/
def membersResp (env : Env) (st : List Nat) : HttpResult (Option (List Product)) :=
  match env.membersFail with
  | some e => HttpResult.err e
  | none => HttpResult.ok (some (st.map toMember))

/-- One API call issued by the workflow, for the run's call trace. -/
inductive ApiCall where
  | infoCall
  | productsCall
  | membersCall
  | removeCall (pid : Nat)
  | addCall (pid : Nat)
deriving Repr, DecidableEq

/-- Effect of a successful remove on the remote membership: the product id
is no longer a member. -/
def removeStep (st : List Nat) (pid : Nat) : List Nat :=
  st.filter (fun x => x != pid)

/-- Effect of a successful add on the remote membership: the product id is
a member afterwards (set semantics; adding an existing member is a no-op
on membership). -/
def addStep (st : List Nat) (pid : Nat) : List Nat :=
  if pid ∈ st then st else st ++ [pid]

/-- The removal loop of `clear_collection` (src lines 131-134): for each
listed member, call `remove_product_from_collection` on its id and count
the successes; returns (success count, final membership, calls issued). -/
def removeLoop (env : Env) : List Product → List Nat → Nat × List Nat × List ApiCall
  | [], st => (0, st, [])
  | p :: ps, st =>
    let ok := remove_product_from_collection (removeResp env p.id)
    let st1 := if ok then removeStep st p.id else st
    let r := removeLoop env ps st1
    ((if ok then 1 else 0) + r.1, r.2.1, ApiCall.removeCall p.id :: r.2.2)

/-- `clear_collection` (src lines 115-137): list the current members; if
the listing is empty return `True` at once; otherwise remove each listed
member and return whether every removal succeeded. -/
def clear_collection (env : Env) (st : List Nat) : Bool × List Nat × List ApiCall :=
  let current := get_collection_products (membersResp env st)
  if current.isEmpty then
    (true, st, [ApiCall.membersCall])
  else
    let r := removeLoop env current st
    (r.1 == current.length, r.2.1, ApiCall.membersCall :: r.2.2)

/-- The addition loop of `add_products_to_collection` (src lines 172-177):
for each product id, call `add_product_to_collection` and count the
successes; returns (success count, final membership, calls issued). -/
def addLoop (env : Env) : List Nat → List Nat → Nat × List Nat × List ApiCall
  | [], st => (0, st, [])
  | pid :: ps, st =>
    let ok := add_product_to_collection (addResp env pid)
    let st1 := if ok then addStep st pid else st
    let r := addLoop env ps st1
    ((if ok then 1 else 0) + r.1, r.2.1, ApiCall.addCall pid :: r.2.2)

/-- `add_products_to_collection` (src lines 161-179). -/
def add_products_to_collection (env : Env) (product_ids : List Nat) (st : List Nat) :
    Nat × List Nat × List ApiCall :=
  addLoop env product_ids st

/-- The summary dictionary returned by `run_weekly_update`: `success` and
`timestamp` appear in every returned dictionary; each other key is
`none` when the returning path omits it. -/
structure Summary where
  success : Bool
  error : Option String := none
  collection_name : Option String := none
  products_found : Option Nat := none
  products_added : Option Nat := none
  collection_cleared : Option Bool := none
  message : Option String := none
  timestamp : String
deriving Repr, DecidableEq

/-- `run_weekly_update` (src lines 232-286): fetch the collection metadata
(fail fast if absent), fetch the recent products (succeed at once with a
no-op summary if empty), clear the collection, add each recent product's
id, and assemble the summary. Returns (summary, final remote membership,
trace of API calls issued). -/
def run_weekly_update (env : Env) (st : List Nat) : Summary × List Nat × List ApiCall :=
  match get_collection_info env.infoResp with
  | none =>
    ({ success := false,
       error := some "Could not fetch collection information",
       timestamp := env.timestamp },
     st, [ApiCall.infoCall])
  | some info =>
    let new_products := get_new_products env.productsResp
    if new_products.isEmpty then
      ({ success := true,
         products_found := some 0,
         products_added := some 0,
         message := some "No new products to add",
         timestamp := env.timestamp },
       st, [ApiCall.infoCall, ApiCall.productsCall])
    else
      let c := clear_collection env st
      let product_ids := new_products.map Product.id
      let a := add_products_to_collection env product_ids c.2.1
      ({ success := true,
         collection_name := some (info.title.getD "Unknown"),
         products_found := some new_products.length,
         products_added := some a.1,
         collection_cleared := some c.1,
         timestamp := env.timestamp },
       a.2.1, ApiCall.infoCall :: ApiCall.productsCall :: (c.2.2 ++ a.2.2))

/-- The process environment seen by `__init__` (src lines 41-49):
`os.getenv` yields `None` for an unset variable. -/
structure ProcEnv where
  SHOPIFY_API_KEY : Option String
  SHOPIFY_PASSWORD : Option String
  SHOPIFY_SHOP_NAME : Option String
  COLLECTION_ID : Option String

/-- Python truthiness of an `os.getenv` result: `None` and the empty
string are falsy, every other string is truthy. -/
def truthy : Option String → Bool
  | none => false
  | some s => !s.isEmpty

/-- The configuration held by a constructed `ShopifyCollectionAutomation`
object (src lines 43-52). -/
structure Config where
  api_key : String
  password : String
  shop_name : String
  collection_id : String
  base_url : String
deriving Repr, DecidableEq

/-- `__init__` (src lines 41-54): read the four settings; if any is
missing or empty raise `ValueError` with the fixed message, else derive
`base_url` from the shop name and the fixed host/version template. -/
def initAutomation (pe : ProcEnv) : Except String Config :=
  if truthy pe.SHOPIFY_API_KEY && truthy pe.SHOPIFY_PASSWORD &&
      truthy pe.SHOPIFY_SHOP_NAME && truthy pe.COLLECTION_ID then
    Except.ok
      { api_key := pe.SHOPIFY_API_KEY.getD ""
        password := pe.SHOPIFY_PASSWORD.getD ""
        shop_name := pe.SHOPIFY_SHOP_NAME.getD ""
        collection_id := pe.COLLECTION_ID.getD ""
        base_url :=
          "https://" ++ pe.SHOPIFY_SHOP_NAME.getD "" ++ ".myshopify.com/admin/api/2023-10" }
  else
    Except.error "Missing required environment variables. Please check your .env file."

/-- The exit code of `main` (src lines 288-324): a `ValueError` from
construction is caught and mapped to 1; otherwise 0 when the run
summary's `success` is truthy, else 1. -/
def mainExitCode (pe : ProcEnv) (env : Env) (st : List Nat) : Nat :=
  match initAutomation pe with
  | Except.error _ => 1
  | Except.ok _ => if (run_weekly_update env st).1.success then 0 else 1

/-- The API calls issued by `main`: none when construction raises, else
exactly the run's calls. -/
def mainTrace (pe : ProcEnv) (env : Env) (st : List Nat) : List ApiCall :=
  match initAutomation pe with
  | Except.error _ => []
  | Except.ok _ => (run_weekly_update env st).2.2

/-- The product ids of the remove calls in a trace, in order. -/
def removeCallIds : List ApiCall → List Nat
  | [] => []
  | ApiCall.removeCall pid :: tr => pid :: removeCallIds tr
  | ApiCall.infoCall :: tr => removeCallIds tr
  | ApiCall.productsCall :: tr => removeCallIds tr
  | ApiCall.membersCall :: tr => removeCallIds tr
  | ApiCall.addCall _ :: tr => removeCallIds tr

/-- The product ids of the add calls in a trace, in order. -/
def addCallIds : List ApiCall → List Nat
  | [] => []
  | ApiCall.addCall pid :: tr => pid :: addCallIds tr
  | ApiCall.infoCall :: tr => addCallIds tr
  | ApiCall.productsCall :: tr => addCallIds tr
  | ApiCall.membersCall :: tr => addCallIds tr
  | ApiCall.removeCall _ :: tr => addCallIds tr

/-- Decidable equality of two membership lists as sets of product ids. -/
def sameMembers (a b : List Nat) : Bool :=
  (a.all fun x => decide (x ∈ b)) && (b.all fun x => decide (x ∈ a))

/-- A configuration value that Python's `not all([...])` test rejects:
the variable is unset, or set to the empty string. -/
def missingOrEmpty (o : Option String) : Prop :=
  o = none ∨ o = some ""

/-- Concrete run: metadata present, empty recent-products window, healthy
transport. -/
def envEmptyWindow : Env :=
  { infoResp := HttpResult.ok (some ⟨some "Featured"⟩)
    productsResp := HttpResult.ok (some [])
    membersFail := none
    removeFail := fun _ => none
    addFail := fun _ => none
    timestamp := "2026-10-12T08:00:00" }

/-- Concrete run: two recent products, healthy transport throughout. -/
def envHealthy : Env :=
  { infoResp := HttpResult.ok (some ⟨some "Featured"⟩)
    productsResp := HttpResult.ok (some [⟨101, "Mug"⟩, ⟨102, "Cap"⟩])
    membersFail := none
    removeFail := fun _ => none
    addFail := fun _ => none
    timestamp := "2026-10-12T08:05:00" }

/-- Concrete run: the metadata fetch fails at the transport level. -/
def envInfoDown : Env :=
  { infoResp := HttpResult.err "connection refused"
    productsResp := HttpResult.ok (some [⟨101, "Mug"⟩])
    membersFail := none
    removeFail := fun _ => none
    addFail := fun _ => none
    timestamp := "2026-10-12T08:10:00" }

/-- Concrete run: one recent product, and the removal of member 202 fails
while the removal of member 201 succeeds. -/
def envRemove202Fails : Env :=
  { infoResp := HttpResult.ok (some ⟨some "Featured"⟩)
    productsResp := HttpResult.ok (some [⟨101, "Mug"⟩])
    membersFail := none
    removeFail := fun i => if i == 202 then some "HTTP 500" else none
    addFail := fun _ => none
    timestamp := "2026-10-12T08:15:00" }

/-- Concrete run: two recent products, and the add call for product 102
fails while the add call for product 101 succeeds. -/
def envAdd102Fails : Env :=
  { infoResp := HttpResult.ok (some ⟨some "Featured"⟩)
    productsResp := HttpResult.ok (some [⟨101, "Mug"⟩, ⟨102, "Cap"⟩])
    membersFail := none
    removeFail := fun _ => none
    addFail := fun i => if i == 102 then some "HTTP 422" else none
    timestamp := "2026-10-12T08:20:00" }

/-- Concrete run used alongside configuration checks. -/
def envIdle : Env :=
  { infoResp := HttpResult.ok (some ⟨some "Featured"⟩)
    productsResp := HttpResult.ok (some [])
    membersFail := none
    removeFail := fun _ => none
    addFail := fun _ => none
    timestamp := "2026-10-12T08:25:00" }

/-- Concrete run: the metadata fetch fails, for inspecting the failure
summary's fields. -/
def envInfoDown2 : Env :=
  { infoResp := HttpResult.err "service unavailable"
    productsResp := HttpResult.ok (some [⟨101, "Mug"⟩])
    membersFail := none
    removeFail := fun _ => none
    addFail := fun _ => none
    timestamp := "2026-10-12T08:30:00" }

/-- Concrete run: the recent-products listing repeats product id 55. -/
def envDupListing : Env :=
  { infoResp := HttpResult.ok (some ⟨some "Featured"⟩)
    productsResp := HttpResult.ok (some [⟨55, "Tee"⟩, ⟨55, "Tee v2"⟩, ⟨60, "Hat"⟩])
    membersFail := none
    removeFail := fun _ => none
    addFail := fun _ => none
    timestamp := "2026-10-12T08:35:00" }

/-- Concrete run: the member-listing transport fails, so the clear step
sees an empty member list although member 201 is still present. -/
def envMembersDown : Env :=
  { infoResp := HttpResult.ok (some ⟨some "Featured"⟩)
    productsResp := HttpResult.ok (some [⟨101, "Mug"⟩])
    membersFail := some "read timeout"
    removeFail := fun _ => none
    addFail := fun _ => none
    timestamp := "2026-10-12T08:40:00" }

/-! Helper lemmas about the loops, the clear step, and the call traces. -/

theorem remove_ok_eq (env : Env) (pid : Nat) :
    remove_product_from_collection (removeResp env pid) = (env.removeFail pid).isNone := by
  cases h : env.removeFail pid <;> simp [removeResp, remove_product_from_collection, h]

theorem add_ok_eq (env : Env) (pid : Nat) :
    add_product_to_collection (addResp env pid) = (env.addFail pid).isNone := by
  cases h : env.addFail pid <;> simp [addResp, add_product_to_collection, h]

theorem removeLoop_count (env : Env) (l : List Product) :
    ∀ st, (removeLoop env l st).1 =
      l.countP fun p => remove_product_from_collection (removeResp env p.id) := by
  induction l with
  | nil => intro st; rfl
  | cons p ps ih =>
    intro st
    simp only [removeLoop, List.countP_cons, ih]
    cases hok : remove_product_from_collection (removeResp env p.id) <;>
      simp [hok, Nat.add_comm]

theorem removeLoop_trace (env : Env) (l : List Product) :
    ∀ st, (removeLoop env l st).2.2 = l.map fun p => ApiCall.removeCall p.id := by
  induction l with
  | nil => intro st; rfl
  | cons p ps ih => intro st; simp only [removeLoop, List.map_cons, ih]

theorem removeLoop_state_mem (env : Env) (l : List Product)
    (hok : ∀ p ∈ l, env.removeFail p.id = none) :
    ∀ st x, x ∈ (removeLoop env l st).2.1 ↔ (x ∈ st ∧ x ∉ l.map Product.id) := by
  induction l with
  | nil => intro st x; simp [removeLoop]
  | cons p ps ih =>
    intro st x
    have hp : env.removeFail p.id = none := hok p (by simp)
    have hps : ∀ q ∈ ps, env.removeFail q.id = none := fun q hq => hok q (by simp [hq])
    have hok1 : remove_product_from_collection (removeResp env p.id) = true := by
      rw [remove_ok_eq, hp]; rfl
    simp only [removeLoop, hok1, if_true, ih hps]
    simp [removeStep, List.mem_filter, bne_iff_ne]
    tauto

theorem addLoop_count (env : Env) (l : List Nat) :
    ∀ st, (addLoop env l st).1 =
      l.countP fun i => add_product_to_collection (addResp env i) := by
  induction l with
  | nil => intro st; rfl
  | cons i is ih =>
    intro st
    simp only [addLoop, List.countP_cons, ih]
    cases hok : add_product_to_collection (addResp env i) <;> simp [hok, Nat.add_comm]

theorem addLoop_trace (env : Env) (l : List Nat) :
    ∀ st, (addLoop env l st).2.2 = l.map ApiCall.addCall := by
  induction l with
  | nil => intro st; rfl
  | cons i is ih => intro st; simp only [addLoop, List.map_cons, ih]

theorem mem_addStep (st : List Nat) (i x : Nat) : x ∈ addStep st i ↔ (x ∈ st ∨ x = i) := by
  by_cases h : i ∈ st
  · simp only [addStep, if_pos h]
    constructor
    · exact Or.inl
    · rintro (hx | rfl)
      · exact hx
      · exact h
  · simp [addStep, if_neg h]

theorem addLoop_state_mem (env : Env) (l : List Nat)
    (hok : ∀ i ∈ l, env.addFail i = none) :
    ∀ st x, x ∈ (addLoop env l st).2.1 ↔ (x ∈ st ∨ x ∈ l) := by
  induction l with
  | nil => intro st x; simp [addLoop]
  | cons i is ih =>
    intro st x
    have hi : env.addFail i = none := hok i (by simp)
    have his : ∀ j ∈ is, env.addFail j = none := fun j hj => hok j (by simp [hj])
    have hok1 : add_product_to_collection (addResp env i) = true := by
      rw [add_ok_eq, hi]; rfl
    simp only [addLoop, hok1, if_true, ih his]
    simp [mem_addStep, List.mem_cons]
    tauto

theorem map_toMember_id (st : List Nat) : (st.map toMember).map Product.id = st := by
  rw [List.map_map]
  exact List.map_id st

theorem members_listing_ok (env : Env) (st : List Nat) (h : env.membersFail = none) :
    get_collection_products (membersResp env st) = st.map toMember := by
  simp [membersResp, get_collection_products, h]

theorem clear_collection_flag (env : Env) (st : List Nat) (h : env.membersFail = none) :
    (clear_collection env st).1 =
      ((st.countP fun i => remove_product_from_collection (removeResp env i)) ==
        st.length) := by
  rw [clear_collection, members_listing_ok env st h]
  cases st with
  | nil => rfl
  | cons a tl =>
    simp only [show ((a :: tl).map toMember).isEmpty = false from rfl,
      Bool.false_eq_true, if_false, removeLoop_count, List.countP_map, List.length_map]
    rfl

theorem clear_collection_state_mem (env : Env) (st : List Nat)
    (h : env.membersFail = none) (hok : ∀ i ∈ st, env.removeFail i = none) :
    ∀ x, x ∉ (clear_collection env st).2.1 := by
  intro x
  rw [clear_collection, members_listing_ok env st h]
  cases st with
  | nil => simp
  | cons a tl =>
    simp only [List.map_cons, List.isEmpty_cons, if_false]
    have hokp : ∀ p ∈ (a :: tl).map toMember, env.removeFail p.id = none := by
      intro p hp
      obtain ⟨i, hi, rfl⟩ := List.mem_map.mp hp
      exact hok i hi
    intro hx
    have := (removeLoop_state_mem env ((a :: tl).map toMember) hokp (a :: tl) x).mp hx
    rw [map_toMember_id] at this
    exact this.2 this.1

theorem clear_collection_empty_listing (env : Env) (st : List Nat)
    (h : get_collection_products (membersResp env st) = []) :
    clear_collection env st = (true, st, [ApiCall.membersCall]) := by
  simp [clear_collection, h]

theorem addCallIds_append (a b : List ApiCall) :
    addCallIds (a ++ b) = addCallIds a ++ addCallIds b := by
  induction a with
  | nil => rfl
  | cons c tr ih => cases c <;> simp [addCallIds, ih]

theorem addCallIds_removeMap (l : List Product) :
    addCallIds (l.map fun p => ApiCall.removeCall p.id) = [] := by
  induction l with
  | nil => rfl
  | cons p ps ih => simp [addCallIds, ih]

theorem addCallIds_addMap (l : List Nat) :
    addCallIds (l.map ApiCall.addCall) = l := by
  induction l with
  | nil => rfl
  | cons i is ih => simp [addCallIds, ih]

theorem removeCallIds_append (a b : List ApiCall) :
    removeCallIds (a ++ b) = removeCallIds a ++ removeCallIds b := by
  induction a with
  | nil => rfl
  | cons c tr ih => cases c <;> simp [removeCallIds, ih]

theorem removeCallIds_addMap (l : List Nat) :
    removeCallIds (l.map ApiCall.addCall) = [] := by
  induction l with
  | nil => rfl
  | cons i is ih => simp [removeCallIds, ih]

theorem clear_trace_no_adds (env : Env) (st : List Nat) :
    addCallIds (clear_collection env st).2.2 = [] := by
  rw [clear_collection]
  cases hcur : get_collection_products (membersResp env st) with
  | nil => rfl
  | cons p ps =>
    simp only [List.isEmpty_cons, if_false, removeLoop_trace]
    simp [addCallIds, addCallIds_removeMap]

theorem run_weekly_update_full (env : Env) (st : List Nat) (info : CollectionInfo)
    (hinfo : get_collection_info env.infoResp = some info)
    (hne : get_new_products env.productsResp ≠ []) :
    run_weekly_update env st =
      ({ success := true,
         collection_name := some (info.title.getD "Unknown"),
         products_found := some (get_new_products env.productsResp).length,
         products_added := some (add_products_to_collection env
           ((get_new_products env.productsResp).map Product.id)
           (clear_collection env st).2.1).1,
         collection_cleared := some (clear_collection env st).1,
         timestamp := env.timestamp },
       (add_products_to_collection env
           ((get_new_products env.productsResp).map Product.id)
           (clear_collection env st).2.1).2.1,
       ApiCall.infoCall :: ApiCall.productsCall ::
         ((clear_collection env st).2.2 ++ (add_products_to_collection env
           ((get_new_products env.productsResp).map Product.id)
           (clear_collection env st).2.1).2.2)) := by
  have hie : (get_new_products env.productsResp).isEmpty = false := by
    rw [← Bool.not_eq_true, List.isEmpty_iff]
    exact hne
  simp only [run_weekly_update, hinfo, hie, Bool.false_eq_true, if_false]

theorem sameMembers_of_mem_iff (a b : List Nat) (h : ∀ x, x ∈ a ↔ x ∈ b) :
    sameMembers a b = true := by
  simp only [sameMembers, Bool.and_eq_true, List.all_eq_true, decide_eq_true_eq]
  exact ⟨fun x hx => (h x).mp hx, fun x hx => (h x).mpr hx⟩

theorem truthy_false_of_missingOrEmpty (o : Option String) (h : missingOrEmpty o) :
    truthy o = false := by
  rcases h with h | h <;> rw [h] <;> rfl

theorem run_weekly_update_noInfo (env : Env) (st : List Nat)
    (h : get_collection_info env.infoResp = none) :
    run_weekly_update env st =
      ({ success := false,
         error := some "Could not fetch collection information",
         timestamp := env.timestamp },
       st, [ApiCall.infoCall]) := by
  simp only [run_weekly_update, h]

theorem run_weekly_update_emptyWindow (env : Env) (st : List Nat) (info : CollectionInfo)
    (hinfo : get_collection_info env.infoResp = some info)
    (hp : get_new_products env.productsResp = []) :
    run_weekly_update env st =
      ({ success := true,
         products_found := some 0,
         products_added := some 0,
         message := some "No new products to add",
         timestamp := env.timestamp },
       st, [ApiCall.infoCall, ApiCall.productsCall]) := by
  simp [run_weekly_update, hinfo, hp]

/-! The claims. -/

/-- C1 (counterexample): a run over an empty recent-products window
completes with a summary whose success flag is true while the remote
membership, still [201], differs as a set from the (empty) list of
product identifiers returned by the recent-products listing — so a
successful summary alone does not imply membership convergence. -/
theorem claim_C1_counterexample :
    (run_weekly_update envEmptyWindow [201]).1.success = true ∧
    sameMembers (run_weekly_update envEmptyWindow [201]).2.1
      ((get_new_products envEmptyWindow.productsResp).map Product.id) = false :=
  ⟨rfl, rfl⟩

/-- C1 (amended): for every run in which the metadata fetch succeeds, the
recent-products listing is non-empty, the member-listing transport
succeeds, and every remove and add call succeeds, the summary's success
flag is true and the remote collection's membership at the end of the
run equals, as a set, the product identifiers returned by the
recent-products listing, regardless of the initial membership. -/
theorem claim_C1_amended (env : Env) (st : List Nat) (info : CollectionInfo)
    (hinfo : get_collection_info env.infoResp = some info)
    (hne : get_new_products env.productsResp ≠ [])
    (hmem : env.membersFail = none)
    (hrem : ∀ i, env.removeFail i = none)
    (hadd : ∀ i, env.addFail i = none) :
    (run_weekly_update env st).1.success = true ∧
    sameMembers (run_weekly_update env st).2.1
      ((get_new_products env.productsResp).map Product.id) = true := by
  rw [run_weekly_update_full env st info hinfo hne]
  refine ⟨rfl, sameMembers_of_mem_iff _ _ fun x => ?_⟩
  show x ∈ (add_products_to_collection env _ _).2.1 ↔ _
  rw [add_products_to_collection,
    addLoop_state_mem env _ (fun i _ => hadd i) (clear_collection env st).2.1 x]
  have hclear := clear_collection_state_mem env st hmem (fun i _ => hrem i) x
  constructor
  · rintro (hx | hx)
    · exact absurd hx hclear
    · exact hx
  · exact Or.inr

theorem claim_C1_witness :
    (run_weekly_update envHealthy [201]).1.success = true ∧
    sameMembers (run_weekly_update envHealthy [201]).2.1 [101, 102] = true := by
  have h := claim_C1_amended envHealthy [201] ⟨some "Featured"⟩ rfl (by decide) rfl
    (fun _ => rfl) (fun _ => rfl)
  exact ⟨h.1, h.2⟩

/-- C2: for every run in which the collection-metadata fetch returns the
absence marker, the workflow returns at once a summary with success flag
false and error text exactly "Could not fetch collection information",
the remote membership is untouched, and the call trace holds only the
metadata call — no recent-products listing, member listing, remove or
add call is issued. -/
theorem claim_C2 (env : Env) (st : List Nat)
    (h : get_collection_info env.infoResp = none) :
    run_weekly_update env st =
      ({ success := false,
         error := some "Could not fetch collection information",
         timestamp := env.timestamp },
       st, [ApiCall.infoCall]) :=
  run_weekly_update_noInfo env st h

theorem claim_C2_witness :
    get_collection_info envInfoDown.infoResp = none ∧
    run_weekly_update envInfoDown [201] =
      ({ success := false,
         error := some "Could not fetch collection information",
         timestamp := "2026-10-12T08:10:00" },
       [201], [ApiCall.infoCall]) :=
  ⟨rfl, claim_C2 envInfoDown [201] rfl⟩

/-- C3: for every run in which the metadata fetch succeeds and the
recent-products listing returns the empty sequence, the workflow returns
a summary with success flag true, products_found = 0, products_added = 0
and message "No new products to add", the call trace holds only the
metadata and listing calls — no member listing, remove or add — and the
remote membership after the run equals the membership before it. -/
theorem claim_C3 (env : Env) (st : List Nat) (info : CollectionInfo)
    (hinfo : get_collection_info env.infoResp = some info)
    (hp : get_new_products env.productsResp = []) :
    run_weekly_update env st =
      ({ success := true,
         products_found := some 0,
         products_added := some 0,
         message := some "No new products to add",
         timestamp := env.timestamp },
       st, [ApiCall.infoCall, ApiCall.productsCall]) :=
  run_weekly_update_emptyWindow env st info hinfo hp

theorem claim_C3_witness :
    get_new_products envIdle.productsResp = [] ∧
    run_weekly_update envIdle [201] =
      ({ success := true,
         products_found := some 0,
         products_added := some 0,
         message := some "No new products to add",
         timestamp := "2026-10-12T08:25:00" },
       [201], [ApiCall.infoCall, ApiCall.productsCall]) :=
  ⟨rfl, claim_C3 envIdle [201] ⟨some "Featured"⟩ rfl rfl⟩

/-- C4: for every run that reaches the clear step over a non-empty member
list of which not every removal succeeds, the summary's success flag is
still true, its collection_cleared flag equals (number of successful
removals == member count) — here false — and an add call is still issued
for every recent product, in listing order. -/
theorem claim_C4 (env : Env) (st : List Nat) (info : CollectionInfo)
    (hinfo : get_collection_info env.infoResp = some info)
    (hne : get_new_products env.productsResp ≠ [])
    (hmem : env.membersFail = none)
    (hpart : (st.countP fun i => remove_product_from_collection (removeResp env i)) <
      st.length) :
    (run_weekly_update env st).1.success = true ∧
    (run_weekly_update env st).1.collection_cleared =
      some ((st.countP fun i => remove_product_from_collection (removeResp env i)) ==
        st.length) ∧
    (run_weekly_update env st).1.collection_cleared = some false ∧
    addCallIds (run_weekly_update env st).2.2 =
      (get_new_products env.productsResp).map Product.id := by
  rw [run_weekly_update_full env st info hinfo hne]
  have hflag := clear_collection_flag env st hmem
  have hfalse : ((st.countP fun i => remove_product_from_collection (removeResp env i)) ==
      st.length) = false :=
    beq_eq_false_iff_ne.mpr (Nat.ne_of_lt hpart)
  refine ⟨rfl, ?_, ?_, ?_⟩
  · show some (clear_collection env st).1 = _
    rw [hflag]
  · show some (clear_collection env st).1 = _
    rw [hflag, hfalse]
  · show addCallIds (ApiCall.infoCall :: ApiCall.productsCall :: _) = _
    simp only [addCallIds, addCallIds_append, clear_trace_no_adds,
      add_products_to_collection, addLoop_trace, addCallIds_addMap, List.nil_append]

theorem claim_C4_witness :
    (run_weekly_update envRemove202Fails [201, 202]).1.success = true ∧
    (run_weekly_update envRemove202Fails [201, 202]).1.collection_cleared = some false ∧
    addCallIds (run_weekly_update envRemove202Fails [201, 202]).2.2 = [101] := by
  have h := claim_C4 envRemove202Fails [201, 202] ⟨some "Featured"⟩ rfl (by decide) rfl
    (by decide)
  exact ⟨h.1, h.2.2.1, by rw [h.2.2.2]; rfl⟩

/-- C5: for every run that reaches the repopulate step, the summary's
products_added field equals the number of add calls that returned
success over the issued product identifiers, and products_found equals
the length of the recent-products list; the former may be strictly
smaller, as the witness shows. -/
theorem claim_C5 (env : Env) (st : List Nat) (info : CollectionInfo)
    (hinfo : get_collection_info env.infoResp = some info)
    (hne : get_new_products env.productsResp ≠ []) :
    (run_weekly_update env st).1.products_found =
      some (get_new_products env.productsResp).length ∧
    (run_weekly_update env st).1.products_added =
      some (((get_new_products env.productsResp).map Product.id).countP
        fun i => add_product_to_collection (addResp env i)) := by
  rw [run_weekly_update_full env st info hinfo hne]
  refine ⟨rfl, ?_⟩
  show some (add_products_to_collection env _ _).1 = _
  rw [add_products_to_collection, addLoop_count]

theorem claim_C5_witness :
    (run_weekly_update envAdd102Fails [201]).1.products_found = some 2 ∧
    (run_weekly_update envAdd102Fails [201]).1.products_added = some 1 := by
  have h := claim_C5 envAdd102Fails [201] ⟨some "Featured"⟩ rfl (by decide)
  exact ⟨by rw [h.1]; rfl, by rw [h.2]; rfl⟩

/-- C7: a transport/HTTP error in any of the five client operations is
absorbed at the call site and turned into the degraded value: the two
listing operations return the empty sequence, the remove and add
operations return false, and the metadata operation returns the absence
marker; each operation is a total function, so none raises. -/
theorem claim_C7 (e : String) :
    get_new_products (HttpResult.err e) = [] ∧
    get_collection_products (HttpResult.err e) = [] ∧
    remove_product_from_collection (HttpResult.err e) = false ∧
    add_product_to_collection (HttpResult.err e) = false ∧
    get_collection_info (HttpResult.err e) = none :=
  ⟨rfl, rfl, rfl, rfl, rfl⟩

theorem claim_C7_witness :
    get_new_products (HttpResult.err "connection timeout") = [] ∧
    get_collection_products (HttpResult.err "connection timeout") = [] ∧
    remove_product_from_collection (HttpResult.err "connection timeout") = false ∧
    add_product_to_collection (HttpResult.err "connection timeout") = false ∧
    get_collection_info (HttpResult.err "connection timeout") = none :=
  claim_C7 "connection timeout"

/-- C9: for every run that reaches the repopulate step, the add calls are
issued for exactly the product identifiers of the recent-products list,
in the order of that list, with no sorting and no deduplication — a
repeated identifier is added once per occurrence. -/
theorem claim_C9 (env : Env) (st : List Nat) (info : CollectionInfo)
    (hinfo : get_collection_info env.infoResp = some info)
    (hne : get_new_products env.productsResp ≠ []) :
    addCallIds (run_weekly_update env st).2.2 =
      (get_new_products env.productsResp).map Product.id := by
  rw [run_weekly_update_full env st info hinfo hne]
  show addCallIds (ApiCall.infoCall :: ApiCall.productsCall :: _) = _
  simp only [addCallIds, addCallIds_append, clear_trace_no_adds,
    add_products_to_collection, addLoop_trace, addCallIds_addMap, List.nil_append]

theorem claim_C9_witness :
    addCallIds (run_weekly_update envDupListing []).2.2 = [55, 55, 60] := by
  have h := claim_C9 envDupListing [] ⟨some "Featured"⟩ rfl (by decide)
  rw [h]; rfl

/-- C10: for every run whose member listing during the clear step comes
back empty — whether because the collection is empty or because the
listing call degraded to the empty sequence on error — the clear step
issues no remove calls and reports success, so collection_cleared is
true and the membership is not reduced before the adds; the witness
shows a still-populated collection reported as cleared. -/
theorem claim_C10 (env : Env) (st : List Nat) (info : CollectionInfo)
    (hinfo : get_collection_info env.infoResp = some info)
    (hne : get_new_products env.productsResp ≠ [])
    (hempty : get_collection_products (membersResp env st) = []) :
    (run_weekly_update env st).1.collection_cleared = some true ∧
    removeCallIds (run_weekly_update env st).2.2 = [] ∧
    (run_weekly_update env st).2.1 =
      (addLoop env ((get_new_products env.productsResp).map Product.id) st).2.1 := by
  rw [run_weekly_update_full env st info hinfo hne,
    clear_collection_empty_listing env st hempty]
  refine ⟨rfl, ?_, rfl⟩
  show removeCallIds (ApiCall.infoCall :: ApiCall.productsCall ::
    ([ApiCall.membersCall] ++ _)) = _
  rw [add_products_to_collection, addLoop_trace]
  simp only [removeCallIds, List.cons_append, List.nil_append]
  exact removeCallIds_addMap _

theorem claim_C10_witness :
    (run_weekly_update envMembersDown [201]).1.collection_cleared = some true ∧
    removeCallIds (run_weekly_update envMembersDown [201]).2.2 = [] ∧
    201 ∈ (run_weekly_update envMembersDown [201]).2.1 := by
  have h := claim_C10 envMembersDown [201] ⟨some "Featured"⟩ rfl (by decide) rfl
  exact ⟨h.1, h.2.1, by decide⟩

/-- C6: when any of the four configuration values is missing or empty,
construction fails at once with the descriptive configuration error, the
process exit code is 1, and no API call is issued; when all four are
present and non-empty, construction succeeds and the base URL is the
store subdomain interpolated into the fixed host template with the fixed
API version path segment. -/
theorem claim_C6 (pe : ProcEnv) (env : Env) (st : List Nat) :
    ((missingOrEmpty pe.SHOPIFY_API_KEY ∨ missingOrEmpty pe.SHOPIFY_PASSWORD ∨
      missingOrEmpty pe.SHOPIFY_SHOP_NAME ∨ missingOrEmpty pe.COLLECTION_ID) →
      initAutomation pe =
        Except.error "Missing required environment variables. Please check your .env file." ∧
      mainExitCode pe env st = 1 ∧ mainTrace pe env st = []) ∧
    (∀ k pw sh c : String,
      pe.SHOPIFY_API_KEY = some k → pe.SHOPIFY_PASSWORD = some pw →
      pe.SHOPIFY_SHOP_NAME = some sh → pe.COLLECTION_ID = some c →
      k ≠ "" → pw ≠ "" → sh ≠ "" → c ≠ "" →
      initAutomation pe =
        Except.ok ⟨k, pw, sh, c, "https://" ++ sh ++ ".myshopify.com/admin/api/2023-10"⟩) := by
  constructor
  · intro h
    have herr : initAutomation pe =
        Except.error "Missing required environment variables. Please check your .env file." := by
      rcases h with h | h | h | h
      all_goals
        have ht := truthy_false_of_missingOrEmpty _ h
        simp [initAutomation, ht]
    exact ⟨herr, by simp [mainExitCode, herr], by simp [mainTrace, herr]⟩
  · intro k pw sh c hk hpw hsh hc hk0 hpw0 hsh0 hc0
    have e1 : k.isEmpty = false := by
      rw [← Bool.not_eq_true, String.isEmpty_iff]; exact hk0
    have e2 : pw.isEmpty = false := by
      rw [← Bool.not_eq_true, String.isEmpty_iff]; exact hpw0
    have e3 : sh.isEmpty = false := by
      rw [← Bool.not_eq_true, String.isEmpty_iff]; exact hsh0
    have e4 : c.isEmpty = false := by
      rw [← Bool.not_eq_true, String.isEmpty_iff]; exact hc0
    simp [initAutomation, truthy, hk, hpw, hsh, hc, e1, e2, e3, e4]

theorem claim_C6_witness :
    initAutomation ⟨none, some "pw", some "shop", some "42"⟩ =
      Except.error "Missing required environment variables. Please check your .env file." ∧
    mainExitCode ⟨none, some "pw", some "shop", some "42"⟩ envIdle [] = 1 ∧
    mainTrace ⟨none, some "pw", some "shop", some "42"⟩ envIdle [] = [] ∧
    initAutomation ⟨some "key", some "pw", some "myshop", some "42"⟩ =
      Except.ok ⟨"key", "pw", "myshop", "42",
        "https://myshop.myshopify.com/admin/api/2023-10"⟩ := by
  have h1 := (claim_C6 ⟨none, some "pw", some "shop", some "42"⟩ envIdle []).1
    (Or.inl (Or.inl rfl))
  have h2 := (claim_C6 ⟨some "key", some "pw", some "myshop", some "42"⟩ envIdle []).2
    "key" "pw" "myshop" "42" rfl rfl rfl rfl (by decide) (by decide) (by decide) (by decide)
  exact ⟨h1.1, h1.2.1, h1.2.2, h2⟩

/-- C8 (counterexample): the summary of a run whose metadata fetch fails
has its success flag false but carries no collection title, no found
count, no added count and no cleared flag — so not every terminal path
produces a summary with all the listed fields. -/
theorem claim_C8_counterexample :
    (run_weekly_update envInfoDown2 [201]).1.success = false ∧
    (run_weekly_update envInfoDown2 [201]).1.collection_name = none ∧
    (run_weekly_update envInfoDown2 [201]).1.products_found = none ∧
    (run_weekly_update envInfoDown2 [201]).1.products_added = none ∧
    (run_weekly_update envInfoDown2 [201]).1.collection_cleared = none :=
  ⟨rfl, rfl, rfl, rfl, rfl⟩

/-- C8 (amended): every summary carries the success flag and a timestamp;
the metadata-failure summary additionally carries only the fixed error
text; the empty-window summary carries zero found/added counts and the
fixed message but neither title nor cleared flag; only the
full-completion summary carries the collection title, both counts and
the cleared flag, with no error text. -/
theorem claim_C8_amended (env : Env) (st : List Nat) :
    ((run_weekly_update env st).1.timestamp = env.timestamp) ∧
    (get_collection_info env.infoResp = none →
      (run_weekly_update env st).1.success = false ∧
      (run_weekly_update env st).1.error = some "Could not fetch collection information" ∧
      (run_weekly_update env st).1.collection_name = none ∧
      (run_weekly_update env st).1.products_found = none ∧
      (run_weekly_update env st).1.products_added = none ∧
      (run_weekly_update env st).1.collection_cleared = none) ∧
    (∀ info, get_collection_info env.infoResp = some info →
      get_new_products env.productsResp = [] →
      (run_weekly_update env st).1.success = true ∧
      (run_weekly_update env st).1.products_found = some 0 ∧
      (run_weekly_update env st).1.products_added = some 0 ∧
      (run_weekly_update env st).1.message = some "No new products to add" ∧
      (run_weekly_update env st).1.collection_name = none ∧
      (run_weekly_update env st).1.collection_cleared = none ∧
      (run_weekly_update env st).1.error = none) ∧
    (∀ info, get_collection_info env.infoResp = some info →
      get_new_products env.productsResp ≠ [] →
      (run_weekly_update env st).1.success = true ∧
      (run_weekly_update env st).1.collection_name = some (info.title.getD "Unknown") ∧
      ((run_weekly_update env st).1.products_found).isSome = true ∧
      ((run_weekly_update env st).1.products_added).isSome = true ∧
      ((run_weekly_update env st).1.collection_cleared).isSome = true ∧
      (run_weekly_update env st).1.error = none) := by
  refine ⟨?_, ?_, ?_, ?_⟩
  · cases hinfo : get_collection_info env.infoResp with
    | none => rw [run_weekly_update_noInfo env st hinfo]
    | some info =>
      cases hp : get_new_products env.productsResp with
      | nil => rw [run_weekly_update_emptyWindow env st info hinfo hp]
      | cons q qs =>
        rw [run_weekly_update_full env st info hinfo (by rw [hp]; exact List.cons_ne_nil q qs)]
  · intro hinfo
    rw [run_weekly_update_noInfo env st hinfo]
    exact ⟨rfl, rfl, rfl, rfl, rfl, rfl⟩
  · intro info hinfo hp
    rw [run_weekly_update_emptyWindow env st info hinfo hp]
    exact ⟨rfl, rfl, rfl, rfl, rfl, rfl, rfl⟩
  · intro info hinfo hne
    rw [run_weekly_update_full env st info hinfo hne]
    exact ⟨rfl, rfl, rfl, rfl, rfl, rfl⟩

theorem claim_C8_amended_witness :
    (run_weekly_update envHealthy []).1.timestamp = "2026-10-12T08:05:00" ∧
    (run_weekly_update envHealthy []).1.success = true ∧
    (run_weekly_update envHealthy []).1.collection_name = some "Featured" ∧
    ((run_weekly_update envHealthy []).1.collection_cleared).isSome = true := by
  have h := claim_C8_amended envHealthy []
  have hfull := h.2.2.2 ⟨some "Featured"⟩ rfl (by decide)
  exact ⟨h.1, hfull.1, by rw [hfull.2.1]; rfl, hfull.2.2.2.2.1⟩

end ShopifyAutomation
